import Mathlib

/-!
Verification of the resource-watch reconciliation core and the list-view
default filter of the dynamic-plugin-sdk repository, as a shallow embedding
in Lean 4.

Strings are modelled as lists of character code points (`List Nat`); the
JavaScript `toLowerCase` is modelled on the ASCII range, which is where it
agrees with a per-code-point mapping.
-/

namespace DPS

/-! ## List-view default filter (ListView.tsx, `filterDefault`) -/

/-- A JavaScript value sitting in an item's field: either a string
(code-point list) or some non-string value (anything whose `typeof` is
not a string). -/
inductive JSValue where
  | str (s : List Nat)
  | nonStr
deriving DecidableEq, Repr

/-- A data item: a record from field names to values, modelled as an
association list (JS object property lookup is the first match). -/
abbrev Item : Type := List (List Nat × JSValue)

/-- `item[key]` : first-match association lookup; `none` plays the role of
JS `undefined` for an absent property. -/
def lookupField (item : Item) (key : List Nat) : Option JSValue :=
  match item.find? (fun kv => kv.1 = key) with
  | some kv => some kv.2
  | none => none

/-- ASCII `toLowerCase` on one code point: `A`..`Z` (65..90) maps to
`a`..`z` (+32), all else unchanged. -/
def lowerChar (c : Nat) : Nat :=
  if 65 ≤ c ∧ c ≤ 90 then c + 32 else c

/-- `s.toLowerCase()` on a code-point list. -/
def toLowerL (s : List Nat) : List Nat :=
  s.map lowerChar

/-- JS `hay.includes(needle)` : substring (contiguous infix) test. -/
def containsSub (hay needle : List Nat) : Bool :=
  (List.range (hay.length + 1)).any (fun i => needle.isPrefixOf (hay.drop i))

/-- The filter-values map: `Object.entries(filterValues)`, a list of
`(key, values)` pairs. -/
abbrev FilterValues : Type := List (List Nat × List (List Nat))

/-- Does one item pass one `(key, values)` entry? Mirrors
`typeof item[key] === 'string' && values.every((v) => item[key].toLowerCase().includes(v))`. -/
def entryPasses (item : Item) (kv : List Nat × List (List Nat)) : Bool :=
  match lookupField item kv.1 with
  | some (JSValue.str s) => kv.2.all (fun v => containsSub (toLowerL s) v)
  | _ => false

/-- `filterDefault` from ListView.tsx:
`data.filter((item) => Object.entries(filterValues).every(([key, values]) =>
  typeof item[key] === 'string' && values.every((v) => (item[key] as string).toLowerCase().includes(v))))`. -/
def filterDefault (data : List Item) (filterValues : FilterValues) : List Item :=
  data.filter (fun item => filterValues.all (fun kv => entryPasses item kv))

/-- If a substring test succeeds, every code point of the needle occurs in
the haystack. -/
theorem mem_of_containsSub {hay needle : List Nat}
    (h : containsSub hay needle = true) : ∀ c ∈ needle, c ∈ hay := by
  intro c hc
  unfold containsSub at h
  rw [List.any_eq_true] at h
  obtain ⟨i, _, hpre⟩ := h
  have hinf : needle <+: hay.drop i := List.isPrefixOf_iff_prefix.mp hpre
  have hsub : needle ⊆ hay.drop i := hinf.sublist.subset
  exact List.drop_subset i hay (hsub hc)

/-- `lowerChar` never produces an ASCII uppercase code point. -/
theorem lowerChar_not_upper (c : Nat) : ¬ (65 ≤ lowerChar c ∧ lowerChar c ≤ 90) := by
  unfold lowerChar
  split <;> omega

/-- The lowercased field value contains no ASCII uppercase code point. -/
theorem not_mem_toLowerL_of_upper {c : Nat} (hu : 65 ≤ c ∧ c ≤ 90) (s : List Nat) :
    c ∉ toLowerL s := by
  intro hmem
  unfold toLowerL at hmem
  obtain ⟨d, _, hd⟩ := List.mem_map.mp hmem
  exact lowerChar_not_upper d (hd ▸ hu)

/-- A filter entry holding a value with an ASCII uppercase code point
rejects every item. -/
theorem entryPasses_false_of_upper {k : List Nat} {vs : List (List Nat)}
    {v : List Nat} {c : Nat} (hv : v ∈ vs) (hc : c ∈ v)
    (hu : 65 ≤ c ∧ c ≤ 90) (item : Item) :
    entryPasses item (k, vs) = false := by
  unfold entryPasses
  cases hl : lookupField item k with
  | none => rfl
  | some jv =>
    cases jv with
    | nonStr => rfl
    | str s =>
      rw [List.all_eq_false]
      refine ⟨v, hv, ?_⟩
      intro hcs
      have := mem_of_containsSub hcs c hc
      exact not_mem_toLowerL_of_upper hu s this

/-! ## Resource-watch reconciliation (useK8sWatchResource, two variants)

Variant A is the hook with the retry counter and `fetchModel`; variant B is
the hook taking an optional static `initModel`. The `useMemo` body of each
hook is embedded as a pure function of its dependencies; variant A's
in-render side effects (`fetchModel`, `setRetries`) are made explicit in
the returned step record. -/

/-- Sentinel kind for "no resource requested". -/
def NOT_A_VALUE : String := "__not-a-value__"

/-- The fields of `WatchK8sResource` the core reads: the sentinel check
uses `kind`, the placeholder and decoding use `isList`, and the model
lookup uses `groupVersionKind || kind`. -/
structure WatchK8sResource where
  kind : String
  groupVersionKind : Option String
  isList : Bool
deriving DecidableEq, Repr

/-- A resolved type model; only its identity matters to the core. -/
structure K8sModelCommon where
  gvk : String
deriving DecidableEq, Repr

/-- An error value in a result triple: the locally raised `NoModelError`
or an opaque transport-attached load error. -/
inductive ErrVal where
  | noModelError
  | transport (code : Nat)
deriving DecidableEq, Repr

/-- A subscription record in the shared store (`resourceK8s`): raw payload
plus the transport's own `loaded`/`loadError` fields. -/
structure SubscriptionRecord where
  data : List Nat
  loaded : Bool
  loadError : Option ErrVal
deriving DecidableEq, Repr

/-- The `data` slot of a result triple: JS `undefined`, the `{}`
placeholder, a decoded array, or a decoded singular object. -/
inductive ResData where
  | undef
  | emptyObj
  | list (items : List Nat)
  | single (v : Nat)
deriving DecidableEq, Repr

/-- Modelled from the spec: `getReduxData` (k8s-watcher.ts) is not among
the sources; §4.4 step 3 says it decodes the record's raw payload into the
caller's expected shape, list vs. singular extraction. -/
def getReduxData (raw : List Nat) (resource : WatchK8sResource) : ResData :=
  if resource.isList then ResData.list raw
  else
    match raw with
    | [] => ResData.undef
    | x :: _ => ResData.single x

/-- The `[data, loaded, error]` triple returned to callers. -/
structure ResultTriple where
  data : ResData
  loaded : Bool
  err : Option ErrVal
deriving DecidableEq, Repr

/-- Guard of variant A's in-render model fetch:
`!k8sModel && !inFlight && !batchesInFlight && retries < 3`. -/
def fetchGuard (k8sModel : Option K8sModelCommon) ( inFlight batchesInFlight : Bool)
    (retries : Nat) : Bool :=
  k8sModel.isNone && !inFlight && !batchesInFlight && decide (retries < 3)

/-- One evaluation of variant A's `useMemo` body: the triple it returns,
whether it called `fetchModel`, and the retry counter after its
`setRetries` call (unchanged when no fetch was issued). -/
structure ReconcileStep where
  result : ResultTriple
  fetchIssued : Bool
  retriesAfter : Nat
deriving DecidableEq, Repr

/-- Variant A's `useMemo` body (lines 80-99 of the first hook): sentinel
check, no-record branch with fetch guard and `modelsLoaded`-driven
resolution, then the verbatim record branch. -/
def reconcileA (resource : WatchK8sResource) (resourceK8s : Option SubscriptionRecord)
    (k8sModel : Option K8sModelCommon) ( inFlight batchesInFlight : Bool)
    (retries : Nat) (modelsLoaded : Bool) : ReconcileStep :=
  if resource.kind = NOT_A_VALUE then
    ⟨⟨ResData.undef, true, none⟩, false, retries⟩
  else
    match resourceK8s with
    | none =>
      let data := if resource.isList then ResData.list [] else ResData.emptyObj
      let doFetch := fetchGuard k8sModel inFlight batchesInFlight retries
      let retriesAfter := if doFetch then retries + 1 else retries
      let result :=
        if modelsLoaded && k8sModel.isNone && !batchesInFlight then
          ⟨data, true, some ErrVal.noModelError⟩
        else
          ⟨data, false, none⟩
      ⟨result, doFetch, retriesAfter⟩
    | some record =>
      ⟨⟨getReduxData record.data resource, record.loaded, record.loadError⟩, false, retries⟩

/-- Variant B's `useMemo` body (lines 178-193 of the second hook): same
shape, no retry machinery, `undefined` singular placeholder. -/
def reconcileB (resource : WatchK8sResource) (resourceK8s : Option SubscriptionRecord)
    (k8sModel : Option K8sModelCommon) (batchesInFlight modelsLoaded : Bool) : ResultTriple :=
  if resource.kind = NOT_A_VALUE then
    ⟨ResData.undef, true, none⟩
  else
    match resourceK8s with
    | none =>
      let data := if resource.isList then ResData.list [] else ResData.undef
      if modelsLoaded && k8sModel.isNone && !batchesInFlight then
        ⟨data, true, some ErrVal.noModelError⟩
      else
        ⟨data, false, none⟩
    | some record =>
      ⟨getReduxData record.data resource, record.loaded, record.loadError⟩

/-- `initResource || { kind: NOT_A_VALUE }`: the null descriptor is
replaced by the sentinel. -/
def withFallback (initResource : Option WatchK8sResource) : WatchK8sResource :=
  initResource.getD ⟨NOT_A_VALUE, none, false⟩

/-- Variant B's model resolution (lines 146-150):
`modelsLoaded = initModel ? true : storedModelsLoaded` and
`k8sModel = initModel || storedK8sModel`. -/
def resolveModelB (initModel : Option K8sModelCommon) (storedK8sModel : Option K8sModelCommon)
    (storedModelsLoaded : Bool) : Option K8sModelCommon × Bool :=
  (match initModel with
   | some m => some m
   | none => storedK8sModel,
   match initModel with
   | some _ => true
   | none => storedModelsLoaded)

/-! ## Watch session lifecycle (the `useEffect` blocks) -/

/-- A derived watch request: its store id and its subscribe action. -/
structure WatchData where
  id : String
  action : Nat
deriving DecidableEq, Repr

/-- Actions the effect dispatches into the shared store. -/
inductive Action where
  | dispatchWatch (w : WatchData)
  | stopK8sWatch (id : String)
deriving DecidableEq, Repr

/-- The dependency array of the effect: `[dispatch, watchData, workspace]`
(`dispatch` is referentially stable, so only the last two can change). -/
structure EffectDeps where
  watchData : Option WatchData
  workspace : Nat
deriving DecidableEq, Repr

/-- Cleanup of variant A's effect (lines 60-65): stop the previous watch
when one exists, and `setRetries(0)`. Returns the dispatched actions and
the retry counter after the reset. -/
def effectCleanupA (prev : EffectDeps) : List Action × Nat :=
  (match prev.watchData with
   | some w => [Action.stopK8sWatch w.id]
   | none => [],
   0)

/-- Cleanup of variant B's effect (lines 163-167): stop the previous watch
when one exists; variant B has no retry counter. -/
def effectCleanupB (prev : EffectDeps) : List Action :=
  match prev.watchData with
  | some w => [Action.stopK8sWatch w.id]
  | none => []

/-- Body of either effect (lines 57-59 / 160-162): dispatch the subscribe
action when a watch request exists. -/
def effectBody (curr : EffectDeps) : List Action :=
  match curr.watchData with
  | some w => [Action.dispatchWatch w]
  | none => []

/-- React's dependency-array semantics applied to variant A's effect: when
`watchData` or `workspace` changed since the previous committed render,
the previous effect's cleanup runs first, then the new body; otherwise
nothing runs. Returns the dispatched actions in order and the retry
counter after the transition. -/
def effectTransitionA (prev curr : EffectDeps) (retries : Nat) : List Action × Nat :=
  if prev = curr then ([], retries)
  else ((effectCleanupA prev).1 ++ effectBody curr, (effectCleanupA prev).2)

/-- React's dependency-array semantics applied to variant B's effect. -/
def effectTransitionB (prev curr : EffectDeps) : List Action :=
  if prev = curr then []
  else effectCleanupB prev ++ effectBody curr

/-! ## Retry epochs (sequences of variant A reconciliations) -/

/-- The store-derived inputs of one variant A reconciliation; within one
stable (descriptor, model-identity) epoch the descriptor is fixed and
these may change freely between reconciliations. -/
structure ReconcileEnv where
  resourceK8s : Option SubscriptionRecord
  k8sModel : Option K8sModelCommon
  inFlight : Bool
  batchesInFlight : Bool
  modelsLoaded : Bool
deriving DecidableEq, Repr

/-- Run a sequence of variant A reconciliations threading the retry
counter; returns the final counter and how many model fetches were
issued. -/
def runEpoch (resource : WatchK8sResource) : List ReconcileEnv → Nat → Nat × Nat
  | [], retries => (retries, 0)
  | e :: rest, retries =>
    let s := reconcileA resource e.resourceK8s e.k8sModel e.inFlight e.batchesInFlight
      retries e.modelsLoaded
    let p := runEpoch resource rest s.retriesAfter
    (p.1, (if s.fetchIssued then 1 else 0) + p.2)

/-! ## Helper lemmas -/

/-- A model fetch is issued only with no record, no model, nothing in
flight, and the retry counter below 3. -/
theorem fetchIssued_conditions (resource : WatchK8sResource) (rk : Option SubscriptionRecord)
    (m : Option K8sModelCommon) ( inFlight batchesInFlight : Bool) (retries : Nat)
    (modelsLoaded : Bool)
    (h : (reconcileA resource rk m inFlight batchesInFlight retries modelsLoaded).fetchIssued
      = true) :
    rk = none ∧ m = none ∧ inFlight = false ∧ batchesInFlight = false ∧ retries < 3 := by
  by_cases hk : resource.kind = NOT_A_VALUE
  · simp [reconcileA, hk] at h
  · cases rk with
    | some record => simp [reconcileA, hk] at h
    | none =>
      simp only [reconcileA, hk, if_false, ite_false, if_neg hk, fetchGuard] at h
      simp only [Bool.and_eq_true, Bool.not_eq_true', Option.isNone_iff_eq_none,
        decide_eq_true_eq] at h
      exact ⟨rfl, h.1.1.1, h.1.1.2, h.1.2, h.2⟩

/-- The retry counter after one reconciliation: incremented exactly when a
fetch was issued. -/
theorem retriesAfter_eq (resource : WatchK8sResource) (rk : Option SubscriptionRecord)
    (m : Option K8sModelCommon) ( inFlight batchesInFlight : Bool) (retries : Nat)
    (modelsLoaded : Bool) :
    (reconcileA resource rk m inFlight batchesInFlight retries modelsLoaded).retriesAfter =
      (if (reconcileA resource rk m inFlight batchesInFlight retries modelsLoaded).fetchIssued
        then retries + 1 else retries) := by
  by_cases hk : resource.kind = NOT_A_VALUE
  · simp [reconcileA, hk]
  · cases rk with
    | some record => simp [reconcileA, hk]
    | none => simp [reconcileA, hk]

/-- Over any run of reconciliations, at most `3 - r` fetches are issued
starting from counter value `r`. -/
theorem runEpoch_fetches_le (resource : WatchK8sResource) (envs : List ReconcileEnv) :
    ∀ r : Nat, (runEpoch resource envs r).2 ≤ 3 - r := by
  induction envs with
  | nil => intro r; simp [runEpoch]
  | cons e rest ih =>
    intro r
    simp only [runEpoch]
    have hra := retriesAfter_eq resource e.resourceK8s e.k8sModel e.inFlight
      e.batchesInFlight r e.modelsLoaded
    by_cases hf : (reconcileA resource e.resourceK8s e.k8sModel e.inFlight
        e.batchesInFlight r e.modelsLoaded).fetchIssued = true
    · have hcond := fetchIssued_conditions resource e.resourceK8s e.k8sModel e.inFlight
        e.batchesInFlight r e.modelsLoaded hf
      rw [if_pos hf] at hra
      rw [hf, hra]
      have h3 := ih (r + 1)
      have hlt := hcond.2.2.2.2
      simp only [if_true, show (true = true) = True from by simp, ite_true]
      omega
    · have hf' : (reconcileA resource e.resourceK8s e.k8sModel e.inFlight
          e.batchesInFlight r e.modelsLoaded).fetchIssued = false :=
        Bool.eq_false_iff.mpr hf
      rw [if_neg hf] at hra
      rw [hf', hra]
      have h3 := ih r
      simp only [show (false = true) = False from by simp, ite_false]
      omega

/-- Modelled from the spec: the shared store's k8s reducer
(app/redux/reducers/k8s) is not among the sources; §7 says callers see
`loaded=false` only while waiting and an error only when resolution
definitively fails, so a record delivered by the transport carries a load
error only once it is loaded. -/
def recordWF : Option SubscriptionRecord → Prop
  | none => True
  | some record => record.loaded = false → record.loadError = none

/-- A concrete non-sentinel list descriptor, used in witnesses. -/
def demoRes : WatchK8sResource := ⟨"Pod", none, true⟩

/-- A concrete non-sentinel singular descriptor, used in witnesses. -/
def demoResSingle : WatchK8sResource := ⟨"Widget", none, false⟩

/-- The sentinel descriptor produced by the null fallback. -/
def demoSentinel : WatchK8sResource := ⟨NOT_A_VALUE, none, false⟩

end DPS

namespace DPS

/-- C1: with a non-sentinel descriptor and no subscription record, both
reconciler variants return `(placeholder, true, NoModelError)` exactly
when all models are loaded, the model is absent and no batch fetch is in
flight, and `(placeholder, false, undefined)` otherwise. -/
theorem reconcile_no_record_resolution (resource : WatchK8sResource)
    (m : Option K8sModelCommon) ( inFlight batchesInFlight modelsLoaded : Bool)
    (retries : Nat) (hk : resource.kind ≠ NOT_A_VALUE) :
    (reconcileA resource none m inFlight batchesInFlight retries modelsLoaded).result =
      (if modelsLoaded = true ∧ m = none ∧ batchesInFlight = false then
        ⟨if resource.isList then ResData.list [] else ResData.emptyObj, true,
          some ErrVal.noModelError⟩
       else
        ⟨if resource.isList then ResData.list [] else ResData.emptyObj, false, none⟩) ∧
    reconcileB resource none m batchesInFlight modelsLoaded =
      (if modelsLoaded = true ∧ m = none ∧ batchesInFlight = false then
        ⟨if resource.isList then ResData.list [] else ResData.undef, true,
          some ErrVal.noModelError⟩
       else
        ⟨if resource.isList then ResData.list [] else ResData.undef, false, none⟩) := by
  cases m with
  | none =>
    cases modelsLoaded <;> cases batchesInFlight <;>
      constructor <;> simp [reconcileA, reconcileB, hk]
  | some mv =>
    cases modelsLoaded <;> cases batchesInFlight <;>
      constructor <;> simp [reconcileA, reconcileB, hk]

/-- C1 witness: at a concrete input with all models loaded, no model and
nothing in flight, both variants report `NoModelError`. -/
theorem reconcile_no_record_resolution_witness :
    (reconcileA demoRes none none false false 0 true).result =
      ⟨ResData.list [], true, some ErrVal.noModelError⟩ ∧
    reconcileB demoRes none none false true =
      ⟨ResData.list [], true, some ErrVal.noModelError⟩ := by
  have h := reconcile_no_record_resolution demoRes none false false true 0 (by decide)
  constructor
  · rw [h.1]; decide
  · rw [h.2]; decide

/-- C2: once a subscription record exists (non-sentinel descriptor), both
variants return the decoded record data with the record's `loaded` and
`loadError` verbatim, independent of retries, model, in-flight flags and
`modelsLoaded`. -/
theorem reconcile_record_verbatim (resource : WatchK8sResource) (record : SubscriptionRecord)
    (m : Option K8sModelCommon) ( inFlight batchesInFlight modelsLoaded : Bool)
    (retries : Nat) (hk : resource.kind ≠ NOT_A_VALUE) :
    (reconcileA resource (some record) m inFlight batchesInFlight retries modelsLoaded).result =
      ⟨getReduxData record.data resource, record.loaded, record.loadError⟩ ∧
    reconcileB resource (some record) m batchesInFlight modelsLoaded =
      ⟨getReduxData record.data resource, record.loaded, record.loadError⟩ := by
  constructor <;> simp [reconcileA, reconcileB, hk]

/-- C2 witness: a concrete loaded two-item record is passed through with
its own flags. -/
theorem reconcile_record_verbatim_witness :
    (reconcileA demoRes (some ⟨[7, 8], true, none⟩) none true true 2 false).result =
      ⟨ResData.list [7, 8], true, none⟩ ∧
    reconcileB demoRes (some ⟨[7, 8], true, none⟩) none true false =
      ⟨ResData.list [7, 8], true, none⟩ := by
  have h := reconcile_record_verbatim demoRes ⟨[7, 8], true, none⟩ none true true false 2
    (by decide)
  constructor
  · rw [h.1]; decide
  · rw [h.2]; decide

/-- C3: for the sentinel descriptor both variants return
`(undefined, true, undefined)` regardless of every other input, and a null
caller descriptor falls back to the sentinel. -/
theorem reconcile_sentinel (resource : WatchK8sResource) (rk : Option SubscriptionRecord)
    (m : Option K8sModelCommon) ( inFlight batchesInFlight modelsLoaded : Bool)
    (retries : Nat) (hk : resource.kind = NOT_A_VALUE) :
    (reconcileA resource rk m inFlight batchesInFlight retries modelsLoaded).result =
      ⟨ResData.undef, true, none⟩ ∧
    reconcileB resource rk m batchesInFlight modelsLoaded = ⟨ResData.undef, true, none⟩ ∧
    (withFallback none).kind = NOT_A_VALUE := by
  refine ⟨?_, ?_, rfl⟩ <;> simp [reconcileA, reconcileB, hk]

/-- C3 witness: the sentinel triple at a concrete adversarial input (record
present, model present, everything in flight). -/
theorem reconcile_sentinel_witness :
    (reconcileA demoSentinel (some ⟨[1], false, some (ErrVal.transport 5)⟩) (some ⟨"g"⟩)
        true true 2 true).result = ⟨ResData.undef, true, none⟩ ∧
    reconcileB demoSentinel (some ⟨[1], false, some (ErrVal.transport 5)⟩) (some ⟨"g"⟩)
        true true = ⟨ResData.undef, true, none⟩ := by
  have h := reconcile_sentinel demoSentinel (some ⟨[1], false, some (ErrVal.transport 5)⟩)
    (some ⟨"g"⟩) true true true 2 (by decide)
  exact ⟨h.1, h.2.1⟩

/-- C4: within one stable (descriptor, model-identity) epoch a fetch is
issued only with no record, no model, nothing in flight and the counter
below 3; each issued fetch increments the counter; any run starting from a
reset counter issues at most 3 fetches; and a watch-request identity
change resets the counter to 0. -/
theorem reconcileA_retry_bound (resource : WatchK8sResource) :
    (∀ (rk : Option SubscriptionRecord) (m : Option K8sModelCommon)
        ( inFlight batchesInFlight modelsLoaded : Bool) (retries : Nat),
      ((reconcileA resource rk m inFlight batchesInFlight retries modelsLoaded).fetchIssued
          = true →
        rk = none ∧ m = none ∧ inFlight = false ∧ batchesInFlight = false ∧ retries < 3) ∧
      (reconcileA resource rk m inFlight batchesInFlight retries modelsLoaded).retriesAfter =
        (if (reconcileA resource rk m inFlight batchesInFlight retries modelsLoaded).fetchIssued
          then retries + 1 else retries)) ∧
    (∀ envs : List ReconcileEnv, (runEpoch resource envs 0).2 ≤ 3) ∧
    (∀ (prev curr : EffectDeps) (retries : Nat), prev.watchData ≠ curr.watchData →
      (effectTransitionA prev curr retries).2 = 0) := by
  refine ⟨fun rk m iflag bflag ml r =>
    ⟨fun h => fetchIssued_conditions resource rk m iflag bflag r ml h,
     retriesAfter_eq resource rk m iflag bflag r ml⟩, ?_, ?_⟩
  · intro envs
    have h := runEpoch_fetches_le resource envs 0
    simpa using h
  · intro prev curr r h
    have hne : prev ≠ curr := fun he => h (by rw [he])
    simp [effectTransitionA, hne, effectCleanupA]

/-- C4 witness: a fetch fires at counter 0, four bare reconciliations stay
within the bound of 3, and an identity change resets the counter. -/
theorem reconcileA_retry_bound_witness :
    (reconcileA demoRes none none false false 0 false).fetchIssued = true ∧
    (runEpoch demoRes [⟨none, none, false, false, false⟩, ⟨none, none, false, false, false⟩,
      ⟨none, none, false, false, false⟩, ⟨none, none, false, false, false⟩] 0).2 ≤ 3 ∧
    (effectTransitionA ⟨none, 0⟩ ⟨some ⟨"w", 1⟩, 0⟩ 2).2 = 0 := by
  refine ⟨by decide, ?_, ?_⟩
  · exact (reconcileA_retry_bound demoRes).2.1
      [⟨none, none, false, false, false⟩, ⟨none, none, false, false, false⟩,
       ⟨none, none, false, false, false⟩, ⟨none, none, false, false, false⟩]
  · exact (reconcileA_retry_bound demoRes).2.2 ⟨none, 0⟩ ⟨some ⟨"w", 1⟩, 0⟩ 2 (by decide)

/-- C5: over all inputs whose subscription record (when present) was
delivered by the transport (error only once loaded), both variants satisfy
the output invariant: `loaded = false` implies `error = undefined`. -/
theorem reconcile_loaded_false_no_error (resource : WatchK8sResource)
    (rk : Option SubscriptionRecord) (m : Option K8sModelCommon)
    ( inFlight batchesInFlight modelsLoaded : Bool) (retries : Nat)
    (hwf : recordWF rk) :
    ((reconcileA resource rk m inFlight batchesInFlight retries modelsLoaded).result.loaded
        = false →
      (reconcileA resource rk m inFlight batchesInFlight retries modelsLoaded).result.err
        = none) ∧
    ((reconcileB resource rk m batchesInFlight modelsLoaded).loaded = false →
      (reconcileB resource rk m batchesInFlight modelsLoaded).err = none) := by
  by_cases hk : resource.kind = NOT_A_VALUE
  · constructor <;> intro hl <;> simp [reconcileA, reconcileB, hk] at hl
  · cases rk with
    | none =>
      by_cases hc : (modelsLoaded && m.isNone && !batchesInFlight) = true
      · constructor <;> intro hl <;> simp [reconcileA, reconcileB, hk, hc] at hl
      · have hc' : (modelsLoaded && m.isNone && !batchesInFlight) = false :=
          Bool.eq_false_iff.mpr hc
        constructor <;> intro hl <;> simp [reconcileA, reconcileB, hk, hc']
    | some record =>
      have hwf' : record.loaded = false → record.loadError = none := hwf
      constructor
      · intro hl
        simp only [reconcileA, if_neg hk] at hl ⊢
        exact hwf' hl
      · intro hl
        simp only [reconcileB, if_neg hk] at hl ⊢
        exact hwf' hl

/-- C5 witness: a concrete still-loading record yields no error. -/
theorem reconcile_loaded_false_no_error_witness :
    ((reconcileA demoRes (some ⟨[], false, none⟩) none false false 0 false).result.loaded
        = false →
      (reconcileA demoRes (some ⟨[], false, none⟩) none false false 0 false).result.err
        = none) ∧
    ((reconcileB demoRes (some ⟨[], false, none⟩) none false false).loaded = false →
      (reconcileB demoRes (some ⟨[], false, none⟩) none false false).err = none) :=
  reconcile_loaded_false_no_error demoRes (some ⟨[], false, none⟩) none false false false 0
    (fun _ => rfl)

/-- C6: a caller-supplied static model wins over any registry-stored
model and forces `modelsLoaded` to true, whatever the registry's bulk-load
state. -/
theorem resolveModelB_static (m : K8sModelCommon) (storedK8sModel : Option K8sModelCommon)
    (storedModelsLoaded : Bool) :
    resolveModelB (some m) storedK8sModel storedModelsLoaded = (some m, true) := rfl

/-- C7: a workspace change while a watch is active makes variant A's
effect dispatch stop-then-subscribe and reset the retry counter to 0, and
variant B's effect dispatch the same actions. -/
theorem workspace_change_resubscribes (prev curr : EffectDeps) (w w2 : WatchData)
    (retries : Nat) (hws : prev.workspace ≠ curr.workspace)
    (hp : prev.watchData = some w) (hc : curr.watchData = some w2) :
    effectTransitionA prev curr retries =
      ([Action.stopK8sWatch w.id, Action.dispatchWatch w2], 0) ∧
    effectTransitionB prev curr =
      [Action.stopK8sWatch w.id, Action.dispatchWatch w2] := by
  have hne : prev ≠ curr := fun h => hws (by rw [h])
  constructor
  · simp [effectTransitionA, hne, effectCleanupA, effectBody, hp, hc]
  · simp [effectTransitionB, hne, effectCleanupB, effectBody, hp, hc]

/-- C7 witness: an unchanged watch request under a workspace switch is
stopped, resubscribed, and its retry counter reset. -/
theorem workspace_change_resubscribes_witness :
    effectTransitionA ⟨some ⟨"id1", 4⟩, 0⟩ ⟨some ⟨"id1", 4⟩, 1⟩ 3 =
      ([Action.stopK8sWatch "id1", Action.dispatchWatch ⟨"id1", 4⟩], 0) ∧
    effectTransitionB ⟨some ⟨"id1", 4⟩, 0⟩ ⟨some ⟨"id1", 4⟩, 1⟩ =
      [Action.stopK8sWatch "id1", Action.dispatchWatch ⟨"id1", 4⟩] :=
  workspace_change_resubscribes ⟨some ⟨"id1", 4⟩, 0⟩ ⟨some ⟨"id1", 4⟩, 1⟩
    ⟨"id1", 4⟩ ⟨"id1", 4⟩ 3 (by decide) rfl rfl

/-- C8: with no record, the placeholder data is `[]` for list descriptors;
for singular descriptors it is `{}` in variant A and `undefined` in
variant B. -/
theorem reconcile_placeholder_shape (resource : WatchK8sResource) (m : Option K8sModelCommon)
    ( inFlight batchesInFlight modelsLoaded : Bool) (retries : Nat)
    (hk : resource.kind ≠ NOT_A_VALUE) :
    (reconcileA resource none m inFlight batchesInFlight retries modelsLoaded).result.data =
      (if resource.isList then ResData.list [] else ResData.emptyObj) ∧
    (reconcileB resource none m batchesInFlight modelsLoaded).data =
      (if resource.isList then ResData.list [] else ResData.undef) := by
  by_cases hc : (modelsLoaded && m.isNone && !batchesInFlight) = true
  · constructor <;> simp [reconcileA, reconcileB, hk, hc]
  · have hc' : (modelsLoaded && m.isNone && !batchesInFlight) = false :=
      Bool.eq_false_iff.mpr hc
    constructor <;> simp [reconcileA, reconcileB, hk, hc']

/-- C8 witness: concrete singular placeholders of the two variants. -/
theorem reconcile_placeholder_shape_witness :
    (reconcileA demoResSingle none none false false 0 false).result.data = ResData.emptyObj ∧
    (reconcileB demoResSingle none none false false).data = ResData.undef := by
  have h := reconcile_placeholder_shape demoResSingle none false false false 0 (by decide)
  constructor
  · rw [h.1]; decide
  · rw [h.2]; decide

/-- C9: the default filter with an empty filter-values map returns the
data unchanged, and in general its output is a sublist of its input (every
output item is an input item, in the same relative order). -/
theorem filterDefault_empty_and_sublist :
    (∀ data : List Item, filterDefault data [] = data) ∧
    (∀ (data : List Item) (fv : FilterValues),
      List.Sublist (filterDefault data fv) data) := by
  constructor
  · intro data
    simp [filterDefault]
  · intro data fv
    exact List.filter_sublist data

/-- C10: a filter value containing an ASCII uppercase code point can never
match the lowercased field value, so it excludes every item: the filtered
list is empty. -/
theorem filterDefault_uppercase_excludes (data : List Item) (fv : FilterValues)
    (k : List Nat) (vs : List (List Nat)) (v : List Nat) (c : Nat)
    (hk : (k, vs) ∈ fv) (hv : v ∈ vs) (hc : c ∈ v) (hu : 65 ≤ c ∧ c ≤ 90) :
    filterDefault data fv = [] := by
  unfold filterDefault
  rw [List.filter_eq_nil_iff]
  intro item _
  intro hall
  rw [List.all_eq_true] at hall
  have h := hall (k, vs) hk
  rw [entryPasses_false_of_upper hv hc hu item] at h
  exact Bool.false_ne_true h

/-- C10 witness: the filter value "A" (code 65) excludes an item whose
field is "Ab", because only the field is lowercased. -/
theorem filterDefault_uppercase_excludes_witness :
    filterDefault [[([107], JSValue.str [65, 98])]] [([107], [[65]])] = [] :=
  filterDefault_uppercase_excludes [[([107], JSValue.str [65, 98])]] [([107], [[65]])]
    [107] [[65]] [65] 65 (by decide) (by decide) (by decide) (by decide)

end DPS
